import Mathlib

/-!
# Verification of the flight-schedule parser (lab2.py)

Shallow embedding of the core logic of `lab2.py`: the field validators, the
record validator `validate_flight_row`, the ingestion loop `parse_csv_file` /
`parse_input_sources`, store persistence `save_db_json` / `load_db_json`, and
the query matcher `flight_matches_query`.

Modelling conventions:
* Python strings are Lean `String`s; character classes (`isalnum`, `isdigit`,
  whitespace, …) are modelled over ASCII, matching the data the program is
  meant to handle (Python additionally accepts some Unicode letters/digits).
* Python `float(...)` is modelled by `pyFloat`, which follows the grammar the
  CPython float constructor accepts (optional sign, decimal literal with
  optional fraction/exponent and single underscores between digits, or
  `inf`/`infinity`/`nan`, case-insensitively). Finite values are kept as exact
  rationals instead of being rounded to binary64; the sign of zero is not
  tracked. Comparison semantics (including NaN never comparing) are in
  `PyFloat.lt` / `PyFloat.le`.
* `datetime.strptime(s, "%Y-%m-%d %H:%M")` is modelled by `parse_datetime`,
  reproducing the CPython `_strptime` regex for these directives: `%Y` is
  exactly four digits, `%m`/`%d`/`%H`/`%M` are one or two digits in range, a
  whitespace gap in the format matches one or more whitespace characters, and
  the `datetime` constructor then range-checks the year (≥ 1; ≤ 9999 is
  forced by the four-digit year) and the day against the month length.
* File I/O is modelled as data: a `Source` is the list of lines a file handle
  yields, plus a flag telling whether iterating it ends in a raised exception
  (an unopenable file yields no lines and raises).
* The `json` module's text layer is an external collaborator; persistence is
  modelled at the document level with an explicit `Json` tree.
-/

namespace Lab2

/-! ## Python string primitives -/

/-- Python `str.strip()` on a character list: drop whitespace at both ends. -/
def stripChars (cs : List Char) : List Char :=
  ((cs.dropWhile Char.isWhitespace).reverse.dropWhile Char.isWhitespace).reverse

/-- Python `str.strip()`. -/
def pyStrip (s : String) : String := String.mk (stripChars s.toList)

/-- Python `str.split(",")` on a character list: split at every comma, keeping
empty pieces; the empty string yields one empty piece. -/
def splitCommaChars : List Char → List (List Char)
  | [] => [[]]
  | c :: rest =>
    let r := splitCommaChars rest
    if c = ',' then [] :: r
    else
      match r with
      | h :: t => (c :: h) :: t
      | [] => [[c]]

/-- Python `str.split(",")`. -/
def pySplitComma (s : String) : List String :=
  (splitCommaChars s.toList).map String.mk

/-- Contiguous-substring test on character lists (Python's `needle in hay`). -/
def hasSubstr (needle : List Char) : List Char → Bool
  | [] => needle.isPrefixOf []
  | c :: t => needle.isPrefixOf (c :: t) || hasSubstr needle t

/-- Python `needle in hay` for strings. -/
def pyIn (needle hay : String) : Bool := hasSubstr needle.toList hay.toList

/-- Python `s.startswith("#")`. -/
def startsWithHash (s : String) : Bool :=
  match s.toList with
  | c :: _ => c = '#'
  | [] => false

/-- Python `"; ".join(reasons)`. -/
def joinSemicolon : List String → String
  | [] => ""
  | h :: t => t.foldl (fun acc s => acc ++ "; " ++ s) h

/-! ## Field validators (lab2.py lines 15–31) -/

/-- Python `str.isalnum()`: non-empty and every character alphanumeric. -/
def pyIsAlnum (s : String) : Bool :=
  !s.toList.isEmpty && s.toList.all Char.isAlphanum

/-- Model of `is_alnum_len(value, min_len, max_len)` (lab2.py line 15). -/
def is_alnum_len (value : String) (min_len max_len : Nat) : Bool :=
  pyIsAlnum value && decide (min_len ≤ value.length ∧ value.length ≤ max_len)

/-- Python `str.isupper()`: at least one cased character and no lowercase
(ASCII model: some letter, and every letter uppercase). -/
def pyIsUpper (s : String) : Bool :=
  s.toList.any Char.isAlpha && s.toList.all (fun c => !c.isAlpha || c.isUpper)

/-- Python `str.isalpha()`: non-empty and every character a letter. -/
def pyIsAlpha (s : String) : Bool :=
  !s.toList.isEmpty && s.toList.all Char.isAlpha

/-- Model of `is_airport_code(value)` (lab2.py line 19). -/
def is_airport_code (value : String) : Bool :=
  decide (value.length = 3) && pyIsUpper value && pyIsAlpha value

/-! ## Timestamps: `datetime.strptime(value, "%Y-%m-%d %H:%M")` -/

/-- A parsed timestamp of the program's fixed `%Y-%m-%d %H:%M` format. -/
structure PyDateTime where
  year : Nat
  month : Nat
  day : Nat
  hour : Nat
  minute : Nat
deriving DecidableEq, Repr

/-- The `datetime` comparison: lexicographic on (year, month, day, hour, minute). -/
def PyDateTime.ltb (a b : PyDateTime) : Bool :=
  if a.year ≠ b.year then a.year < b.year
  else if a.month ≠ b.month then a.month < b.month
  else if a.day ≠ b.day then a.day < b.day
  else if a.hour ≠ b.hour then a.hour < b.hour
  else a.minute < b.minute

/-- The `datetime` non-strict comparison, `a <= b` iff not `b < a`. -/
def PyDateTime.leb (a b : PyDateTime) : Bool := !(PyDateTime.ltb b a)

/-- Numeric value of a digit string. -/
def digitsVal (ds : List Char) : Nat :=
  ds.foldl (fun a c => 10 * a + (c.toNat - 48)) 0

/-- The `%m` token: one digit `1-9`, or two digits `01-12`. -/
def tokMonth (ds : List Char) : Option Nat :=
  let v := digitsVal ds
  if (ds.length = 1 ∧ 1 ≤ v) ∨ (ds.length = 2 ∧ 1 ≤ v ∧ v ≤ 12) then some v else none

/-- The `%d` token: one digit `1-9`, or two digits `01-31`. -/
def tokDay (ds : List Char) : Option Nat :=
  let v := digitsVal ds
  if (ds.length = 1 ∧ 1 ≤ v) ∨ (ds.length = 2 ∧ 1 ≤ v ∧ v ≤ 31) then some v else none

/-- The `%H` token: one digit `0-9`, or two digits `00-23`. -/
def tokHour (ds : List Char) : Option Nat :=
  let v := digitsVal ds
  if ds.length = 1 ∨ (ds.length = 2 ∧ v ≤ 23) then some v else none

/-- The `%M` token: one digit `0-9`, or two digits `00-59`. -/
def tokMinute (ds : List Char) : Option Nat :=
  let v := digitsVal ds
  if ds.length = 1 ∨ (ds.length = 2 ∧ v ≤ 59) then some v else none

/-- Gregorian leap year, as used by `datetime`. -/
def isLeapYear (y : Nat) : Bool :=
  y % 4 = 0 && (y % 100 ≠ 0 || y % 400 = 0)

/-- Days in a month, as validated by the `datetime` constructor. -/
def daysInMonth (y m : Nat) : Nat :=
  if m = 2 then (if isLeapYear y then 29 else 28)
  else if m = 4 ∨ m = 6 ∨ m = 9 ∨ m = 11 then 30 else 31

/-- Assemble and range-check the five digit groups; `none` models the
`ValueError` from either the `_strptime` regex or the `datetime` constructor
(year ≥ 1 and day within the month; year ≤ 9999 is forced by `%Y`'s four
digits). -/
def mkDateTime (yds mds dds hds minds : List Char) : Option PyDateTime :=
  if yds.length = 4 then
    let y := digitsVal yds
    match tokMonth mds, tokDay dds, tokHour hds, tokMinute minds with
    | some m, some d, some h, some mi =>
      if 1 ≤ y ∧ d ≤ daysInMonth y m then some ⟨y, m, d, h, mi⟩ else none
    | _, _, _, _ => none
  else none

/-- Model of `parse_datetime(value)` (lab2.py line 23): `strptime` with format
`"%Y-%m-%d %H:%M"`; the whole string must be consumed. -/
def parse_datetime (value : String) : Option PyDateTime :=
  let cs := value.toList
  let (yds, r1) := cs.span Char.isDigit
  match r1 with
  | '-' :: r2 =>
    let (mds, r3) := r2.span Char.isDigit
    match r3 with
    | '-' :: r4 =>
      let (dds, r5) := r4.span Char.isDigit
      let (ws, r6) := r5.span Char.isWhitespace
      if ws.isEmpty then none
      else
        let (hds, r7) := r6.span Char.isDigit
        match r7 with
        | ':' :: r8 =>
          let (minds, r9) := r8.span Char.isDigit
          if r9.isEmpty then mkDateTime yds mds dds hds minds else none
        | _ => none
    | _ => none
  | _ => none

/-! ## Prices: Python `float` -/

/-- A Python float value: finite (kept as an exact rational), one of the two
infinities, or NaN. -/
inductive PyFloat where
  | finite (q : ℚ)
  | inf
  | neginf
  | nan
deriving DecidableEq, Repr

/-- Python `<` on floats; NaN compares false with everything. -/
def PyFloat.lt : PyFloat → PyFloat → Bool
  | .nan, _ => false
  | _, .nan => false
  | .neginf, .neginf => false
  | .neginf, _ => true
  | _, .neginf => false
  | .inf, _ => false
  | .finite _, .inf => true
  | .finite a, .finite b => decide (a < b)

/-- Python `<=` on floats; NaN compares false with everything. -/
def PyFloat.le : PyFloat → PyFloat → Bool
  | .nan, _ => false
  | _, .nan => false
  | .neginf, _ => true
  | _, .neginf => false
  | _, .inf => true
  | .inf, _ => false
  | .finite a, .finite b => decide (a ≤ b)

/-- Consume a run of digits in which a single underscore may separate two
digits (the CPython numeric-literal rule); returns the digits (underscores
dropped) and the unconsumed rest. -/
def pyDigits : List Char → List Char × List Char
  | [] => ([], [])
  | [c] => if c.isDigit then ([c], []) else ([], [c])
  | c :: d :: rest =>
    if c.isDigit then
      if d = '_' then
        match rest with
        | e :: _ =>
          if e.isDigit then
            let (ds, r) := pyDigits rest
            (c :: ds, r)
          else ([c], d :: rest)
        | [] => ([c], [d])
      else
        let (ds, r) := pyDigits (d :: rest)
        (c :: ds, r)
    else ([], c :: d :: rest)

/-- Numeric value of a parsed decimal literal: sign, integer digits, fraction
digits, exponent sign and exponent digits; the exact rational
`±(ip.fp) · 10^(±e)`. -/
def mkFinite (neg : Bool) (ip fp : List Char) (eneg : Bool) (eds : List Char) : PyFloat :=
  let n0 : Nat := digitsVal ip * 10 ^ fp.length + digitsVal fp
  let d0 : Nat := 10 ^ fp.length
  let e : Nat := digitsVal eds
  let num : Int := if eneg then (n0 : Int) else (n0 : Int) * 10 ^ e
  let den : Nat := if eneg then d0 * 10 ^ e else d0
  .finite (if neg then mkRat (-num) den else mkRat num den)

/-- Python `float(value)` for strings: surrounding whitespace stripped, then an
optional sign and either `inf`/`infinity`/`nan` (case-insensitive) or a decimal
literal with optional fraction and exponent; nothing may be left over. `none`
models the `ValueError` raised on any other input. -/
def pyFloat (value : String) : Option PyFloat :=
  let cs := stripChars value.toList
  let (neg, cs1) :=
    match cs with
    | '+' :: r => (false, r)
    | '-' :: r => (true, r)
    | _ => (false, cs)
  let low := cs1.map Char.toLower
  if low = "inf".toList ∨ low = "infinity".toList then
    some (if neg then .neginf else .inf)
  else if low = "nan".toList then some .nan
  else
    let (ip, r1) := pyDigits cs1
    let (fp, r2) :=
      match r1 with
      | '.' :: r => pyDigits r
      | _ => ([], r1)
    if ip.isEmpty ∧ fp.isEmpty then none
    else
      match r2 with
      | [] => some (mkFinite neg ip fp false [])
      | c :: r =>
        if c = 'e' ∨ c = 'E' then
          let (eneg, r3) :=
            match r with
            | '+' :: rr => (false, rr)
            | '-' :: rr => (true, rr)
            | _ => (false, r)
          let (eds, r4) := pyDigits r3
          if eds.isEmpty ∨ !r4.isEmpty then none
          else some (mkFinite neg ip fp eneg eds)
        else none

deriving instance DecidableEq for Except

/-- Model of `validate_price(value)` (lab2.py line 27): parse as float, then raise
`ValueError("price must be positive")` when `p <= 0`. A failed parse raises
the float constructor's own `ValueError`, modelled (without CPython's
`repr`-quoting of the input) as a message that names the offending string. -/
def validate_price (value : String) : Except String PyFloat :=
  match pyFloat value with
  | none => .error ("could not convert string to float: " ++ value)
  | some p => if PyFloat.le p (.finite 0) then .error "price must be positive" else .ok p

/-! ## The record validator `validate_flight_row` (lab2.py lines 34–82) -/

/-- A validated flight record: string forms for identifier, airport codes and
timestamps, parsed float for the price — exactly the dict built at
lab2.py lines 75–82. -/
structure FlightRecord where
  flight_id : String
  origin : String
  destination : String
  departure_datetime : String
  arrival_datetime : String
  price : PyFloat
deriving DecidableEq, Repr

/-- The error reasons collected at lab2.py lines 41–64, in program order:
the five independent field checks, then the cross-field arrival-after-departure
check, which runs only when both timestamps parsed. -/
def field_errors (flight_id origin destination dep_dt_str arr_dt_str : String) :
    List String :=
  let dep_dt := parse_datetime dep_dt_str
  let arr_dt := parse_datetime arr_dt_str
  (if is_alnum_len flight_id 2 8 then [] else ["invalid flight_id"])
  ++ (if is_airport_code origin then [] else ["invalid origin"])
  ++ (if is_airport_code destination then [] else ["invalid destination"])
  ++ (if dep_dt.isSome then [] else ["invalid departure_datetime"])
  ++ (if arr_dt.isSome then [] else ["invalid arrival_datetime"])
  ++ (match dep_dt, arr_dt with
      | some d, some a => if PyDateTime.leb a d then ["arrival must be after departure"] else []
      | _, _ => [])

/-- The full reason list a six-field line accumulates: the field and
cross-field reasons followed by the price error, if any (lab2.py lines 41–70). -/
def row_reasons (flight_id origin destination dep_dt_str arr_dt_str price_str : String) :
    List String :=
  field_errors flight_id origin destination dep_dt_str arr_dt_str
  ++ (match validate_price price_str with
      | .ok _ => []
      | .error e => [e])

/-- Model of `validate_flight_row(line, line_number)` (lab2.py lines 34–82): strip the
line, split on commas; any field count other than six fails immediately with
`"missing required fields"`; otherwise collect every failing reason and return
either the record or the reasons joined with `"; "`. The `line_number`
argument is accepted and, as in the source, never used. -/
def validate_flight_row (line : String) (line_number : Nat) :
    Option FlightRecord × Option String :=
  match pySplitComma (pyStrip line) with
  | [p0, p1, p2, p3, p4, p5] =>
    let flight_id := pyStrip p0
    let origin := pyStrip p1
    let destination := pyStrip p2
    let dep_dt_str := pyStrip p3
    let arr_dt_str := pyStrip p4
    let price_str := pyStrip p5
    let errors := field_errors flight_id origin destination dep_dt_str arr_dt_str
    match validate_price price_str with
    | .error e => (none, some (joinSemicolon (errors ++ [e])))
    | .ok price =>
      if errors = [] then
        (some { flight_id := flight_id, origin := origin, destination := destination,
                departure_datetime := dep_dt_str, arrival_datetime := arr_dt_str,
                price := price }, none)
      else (none, some (joinSemicolon errors))
  | _ => (none, some "missing required fields")

/-! ## Ingestion (lab2.py lines 85–119) -/

/-- One input file as the program observes it: the lines its handle yields
(without their trailing newline, which `strip` removes anyway), and whether
iterating it ends in a raised `OSError`/`UnicodeDecodeError`. A file that
cannot be opened yields no lines and raises. -/
structure Source where
  lines : List String
  readFails : Bool
deriving DecidableEq, Repr

/-- The error-log entry for a comment line (lab2.py line 95). -/
def commentEntry (line_number : Nat) (s : String) : String :=
  "Line " ++ Nat.repr line_number ++ ": " ++ s ++ " -> comment"

/-- The error-log entry for a rejected line (lab2.py line 100). -/
def errorEntry (line_number : Nat) (s err : String) : String :=
  "Line " ++ Nat.repr line_number ++ ": " ++ s ++ " -> " ++ err

/-- The per-line body of the ingestion loop (lab2.py lines 89–102): skip blank
lines; skip line 1 when it mentions `flight_id` (header); log comment lines;
otherwise validate and append the record or the error entry. The validator
cannot return neither a record nor an error, so the last arm is unreachable. -/
def processLine (line_number : Nat) (line : String)
    (acc : List FlightRecord × List String) : List FlightRecord × List String :=
  let s := pyStrip line
  if s = "" then acc
  else if line_number = 1 && pyIn "flight_id" s then acc
  else if startsWithHash s then (acc.1, acc.2 ++ [commentEntry line_number s])
  else
    match validate_flight_row line line_number with
    | (_, some err) => (acc.1, acc.2 ++ [errorEntry line_number s err])
    | (some flight, none) => (acc.1 ++ [flight], acc.2)
    | (none, none) => acc

/-- Model of `parse_csv_file(path, valid_flights, error_lines)` (lab2.py lines 85–104):
process the yielded lines with 1-based numbering into the shared accumulators.
The `try/except: pass` around the whole loop swallows a raised read failure
only after the yielded lines have been processed, so `readFails` does not
change the result. -/
def parse_csv_file (src : Source) (valid_flights : List FlightRecord)
    (error_lines : List String) : List FlightRecord × List String :=
  (src.lines.enumFrom 1).foldl (fun acc p => processLine p.1 p.2 acc)
    (valid_flights, error_lines)

/-- Model of `parse_input_sources(csv_file, folder)` (lab2.py lines 107–119), applied to
the ordered list of sources the CLI glue produces (the explicit file first,
then the directory's `*.csv` files in sorted name order). -/
def parse_input_sources (sources : List Source) : List FlightRecord × List String :=
  sources.foldl (fun acc src => parse_csv_file src acc.1 acc.2) ([], [])

/-! ## Store persistence (lab2.py lines 122–135)

`save_db_json` runs `json.dump(flights, f, indent=4)` and `load_db_json` runs
`json.load(f)`; the `json` module's text rendering and parsing are external
collaborators, so persistence is modelled at the level of the JSON document,
and the loaded document is read back into records through the same six field
lookups the rest of the program uses. -/

/-- A JSON document as produced and consumed by the store files. -/
inductive Json where
  | str (s : String)
  | num (v : PyFloat)
  | arr (elems : List Json)
  | obj (fields : List (String × Json))

/-- The JSON object a record serializes to, in the dict's field order
(lab2.py lines 75–82). -/
def flightToJson (f : FlightRecord) : Json :=
  .obj [("flight_id", .str f.flight_id),
        ("origin", .str f.origin),
        ("destination", .str f.destination),
        ("departure_datetime", .str f.departure_datetime),
        ("arrival_datetime", .str f.arrival_datetime),
        ("price", .num f.price)]

/-- A string field of a JSON object. -/
def jsonStrField (fs : List (String × Json)) (k : String) : Option String :=
  match fs.lookup k with
  | some (.str s) => some s
  | _ => none

/-- A numeric field of a JSON object. -/
def jsonNumField (fs : List (String × Json)) (k : String) : Option PyFloat :=
  match fs.lookup k with
  | some (.num v) => some v
  | _ => none

/-- Read one stored object back as the record the program then consumes
field by field. -/
def flightOfJson : Json → Option FlightRecord
  | .obj fs =>
    match jsonStrField fs "flight_id", jsonStrField fs "origin",
          jsonStrField fs "destination", jsonStrField fs "departure_datetime",
          jsonStrField fs "arrival_datetime", jsonNumField fs "price" with
    | some fid, some org, some dst, some dep, some arr, some pr =>
      some ⟨fid, org, dst, dep, arr, pr⟩
    | _, _, _, _, _, _ => none
  | _ => none

/-- Model of `save_db_json(flights, path)` (lab2.py lines 122–124) at document level:
the array of serialized records, in order. -/
def save_db_json (flights : List FlightRecord) : Json :=
  .arr (flights.map flightToJson)

/-- Model of `load_db_json(path)` (lab2.py lines 133–135) at document level: the parsed
array, read back as the ordered record sequence (no re-validation). -/
def load_db_json (doc : Json) : Option (List FlightRecord) :=
  match doc with
  | .arr elems => elems.mapM flightOfJson
  | _ => none

/-! ## The query engine `flight_matches_query` (lab2.py lines 146–175) -/

/-- A query: any subset of the six recognized keys. Unrecognized keys of the
JSON query object are never consulted and are not modelled. Values are the
query file's scalars in string form (`float`/`strptime` are applied to them
exactly as to the record's own string fields). -/
structure Query where
  flight_id : Option String
  origin : Option String
  destination : Option String
  price : Option String
  departure_datetime : Option String
  arrival_datetime : Option String
deriving DecidableEq, Repr

/-- The six recognized query keys. -/
inductive QueryKey where
  | flight_id
  | origin
  | destination
  | price
  | departure_datetime
  | arrival_datetime
deriving DecidableEq, Repr

/-- The value a query holds at a key. -/
def Query.get (q : Query) : QueryKey → Option String
  | .flight_id => q.flight_id
  | .origin => q.origin
  | .destination => q.destination
  | .price => q.price
  | .departure_datetime => q.departure_datetime
  | .arrival_datetime => q.arrival_datetime

/-- The query with one key set to a value. -/
def Query.set (q : Query) : QueryKey → String → Query
  | .flight_id, v =>
    ⟨some v, q.origin, q.destination, q.price, q.departure_datetime, q.arrival_datetime⟩
  | .origin, v =>
    ⟨q.flight_id, some v, q.destination, q.price, q.departure_datetime, q.arrival_datetime⟩
  | .destination, v =>
    ⟨q.flight_id, q.origin, some v, q.price, q.departure_datetime, q.arrival_datetime⟩
  | .price, v =>
    ⟨q.flight_id, q.origin, q.destination, some v, q.departure_datetime, q.arrival_datetime⟩
  | .departure_datetime, v =>
    ⟨q.flight_id, q.origin, q.destination, q.price, some v, q.arrival_datetime⟩
  | .arrival_datetime, v =>
    ⟨q.flight_id, q.origin, q.destination, q.price, q.departure_datetime, some v⟩

/-- Exact-equality check for `flight_id` / `origin` / `destination`
(lab2.py lines 147–152): an absent key never excludes. -/
def check_eq (qv : Option String) (fv : String) : Bool :=
  match qv with
  | none => true
  | some v => fv == v

/-- Price check (lab2.py lines 154–159): the record is excluded when its price
exceeds the query's, and a query value `float` cannot parse excludes the
record instead of raising. The record's own price is already a float, so
`float(...)` on it is the identity. -/
def check_price (qv : Option String) (fp : PyFloat) : Bool :=
  match qv with
  | none => true
  | some s =>
    match pyFloat s with
    | some qp => !(PyFloat.lt qp fp)
    | none => false

/-- Departure check (lab2.py lines 161–166): the record is excluded when its
departure is before the query's (lower bound); a parse failure on either side
excludes. -/
def check_departure (qv : Option String) (fs : String) : Bool :=
  match qv with
  | none => true
  | some s =>
    match parse_datetime fs, parse_datetime s with
    | some fd, some qd => !(PyDateTime.ltb fd qd)
    | _, _ => false

/-- Arrival check (lab2.py lines 168–173): the record is excluded when its
arrival is after the query's (upper bound); a parse failure on either side
excludes. -/
def check_arrival (qv : Option String) (fs : String) : Bool :=
  match qv with
  | none => true
  | some s =>
    match parse_datetime fs, parse_datetime s with
    | some fa, some qa => !(PyDateTime.ltb qa fa)
    | _, _ => false

/-- Model of `flight_matches_query(flight, q)` (lab2.py lines 146–175): the sequence of
early `return False` checks, rendered as a short-circuit conjunction. -/
def flight_matches_query (flight : FlightRecord) (q : Query) : Bool :=
  check_eq q.flight_id flight.flight_id
  && check_eq q.origin flight.origin
  && check_eq q.destination flight.destination
  && check_price q.price flight.price
  && check_departure q.departure_datetime flight.departure_datetime
  && check_arrival q.arrival_datetime flight.arrival_datetime

/-- The matching relation as §4.5 of the spec words it: a record matches iff
it passes every present-key check independently, absent keys imposing no
constraint and any parse failure of a comparison value excluding the record. -/
def flightMatchesSpec (flight : FlightRecord) (q : Query) : Prop :=
  (∀ v, q.flight_id = some v → flight.flight_id = v) ∧
  (∀ v, q.origin = some v → flight.origin = v) ∧
  (∀ v, q.destination = some v → flight.destination = v) ∧
  (∀ s, q.price = some s →
    ∃ qp, pyFloat s = some qp ∧ PyFloat.lt qp flight.price = false) ∧
  (∀ s, q.departure_datetime = some s →
    ∃ fd qd, parse_datetime flight.departure_datetime = some fd ∧
      parse_datetime s = some qd ∧ PyDateTime.ltb fd qd = false) ∧
  (∀ s, q.arrival_datetime = some s →
    ∃ fa qa, parse_datetime flight.arrival_datetime = some fa ∧
      parse_datetime s = some qa ∧ PyDateTime.ltb qa fa = false)

/-! ## Helper lemmas -/

/-- An `if`-guarded singleton reason is absent exactly when its check passes. -/
theorem ite_singleton_eq_nil (b : Bool) (x : String) :
    ((if b = true then ([] : List String) else [x]) = []) = (b = true) := by
  cases b <;> simp

/-- An `if`-emitted singleton reason is absent exactly when its guard fails. -/
theorem emit_singleton_eq_nil (b : Bool) (x : String) :
    ((if b = true then [x] else ([] : List String)) = []) = (b = false) := by
  cases b <;> simp

/-- A value strictly above zero in float order is not `<= 0`. -/
theorem PyFloat.le_zero_eq_false (p : PyFloat) (h : PyFloat.lt (.finite 0) p = true) :
    PyFloat.le p (.finite 0) = false := by
  cases p <;> simp_all [PyFloat.lt, PyFloat.le]

/-- Lemma: `validate_price` succeeds exactly on parseable values that are not `<= 0`. -/
theorem validate_price_ok_iff (s : String) (p : PyFloat) :
    validate_price s = .ok p ↔
      pyFloat s = some p ∧ PyFloat.le p (.finite 0) = false := by
  unfold validate_price
  cases hp : pyFloat s with
  | none => simp
  | some pv =>
    cases hle : PyFloat.le pv (.finite 0) <;>
      simp [hle] <;> intro h <;> simp [h] at hle ⊢ <;> assumption

/-! ## C10: the validator ignores its line-number argument -/

/-- C10: for every raw line, `validate_flight_row` returns identical results
for any two line numbers; the line-number argument never influences the
produced record or error reasons. -/
theorem validator_ignores_line_number (line : String) (n1 n2 : Nat) :
    validate_flight_row line n1 = validate_flight_row line n2 := rfl

/-! ## C3: wrong field count short-circuits to "missing required fields" -/

/-- C3: whenever the stripped line splits on commas into a number of fields
other than six, the validator returns no record and exactly the reason
`"missing required fields"`, regardless of field content. -/
theorem wrong_field_count_missing_required (line : String) (line_number : Nat)
    (h : (pySplitComma (pyStrip line)).length ≠ 6) :
    validate_flight_row line line_number = (none, some "missing required fields") := by
  unfold validate_flight_row
  split
  · rename_i p0 p1 p2 p3 p4 p5 heq
    rw [heq] at h
    simp at h
  · rfl

/-- Witness for C3 at a five-field line. -/
theorem wrong_field_count_missing_required_witness :
    validate_flight_row "AB12,JFK,LAX,2024-01-01 08:00,100" 3 =
      (none, some "missing required fields") :=
  wrong_field_count_missing_required _ 3 (by decide)

/-! ## C1: fully valid six-field lines are accepted verbatim -/

/-- C1: a raw line that splits into exactly six fields whose trimmed forms
pass every field check — alphanumeric id of length 2–8, two airport codes,
two parseable timestamps with arrival strictly after departure, and a price
parsing to a value greater than zero — is accepted with no error, the record
carrying the trimmed strings and the parsed price. -/
theorem valid_line_accepted (line : String) (line_number : Nat)
    (p0 p1 p2 p3 p4 p5 : String)
    (hsplit : pySplitComma (pyStrip line) = [p0, p1, p2, p3, p4, p5])
    (hfid : is_alnum_len (pyStrip p0) 2 8 = true)
    (horg : is_airport_code (pyStrip p1) = true)
    (hdst : is_airport_code (pyStrip p2) = true)
    (dep arr : PyDateTime)
    (hdep : parse_datetime (pyStrip p3) = some dep)
    (harr : parse_datetime (pyStrip p4) = some arr)
    (pv : PyFloat)
    (hpr : pyFloat (pyStrip p5) = some pv)
    (hpos : PyFloat.lt (.finite 0) pv = true)
    (horder : PyDateTime.ltb dep arr = true) :
    validate_flight_row line line_number =
      (some ⟨pyStrip p0, pyStrip p1, pyStrip p2, pyStrip p3, pyStrip p4, pv⟩, none) := by
  have hle := PyFloat.le_zero_eq_false pv hpos
  have hprice : validate_price (pyStrip p5) = .ok pv :=
    (validate_price_ok_iff _ _).mpr ⟨hpr, hle⟩
  have herr : field_errors (pyStrip p0) (pyStrip p1) (pyStrip p2) (pyStrip p3) (pyStrip p4) = [] := by
    simp [field_errors, hfid, horg, hdst, hdep, harr, PyDateTime.leb, horder]
  unfold validate_flight_row
  rw [hsplit]
  simp [herr, hprice]

/-- Witness for C1 at the spec's end-to-end example line. -/
theorem valid_line_accepted_witness :
    validate_flight_row "AB12,JFK,LAX,2024-01-01 08:00,2024-01-01 10:00,100" 1 =
      (some ⟨pyStrip "AB12", pyStrip "JFK", pyStrip "LAX",
             pyStrip "2024-01-01 08:00", pyStrip "2024-01-01 10:00",
             PyFloat.finite 100⟩, none) :=
  valid_line_accepted _ 1 "AB12" "JFK" "LAX" "2024-01-01 08:00" "2024-01-01 10:00" "100"
    (by decide) (by decide) (by decide) (by decide)
    ⟨2024, 1, 1, 8, 0⟩ ⟨2024, 1, 1, 10, 0⟩ (by decide) (by decide)
    (PyFloat.finite 100) (by decide) (by decide) (by decide)

/-! ## C4: the cross-field reason appears exactly when both timestamps parse
and arrival is not after departure -/

/-- The float constructor's error message never collides with the cross-field
reason (they differ at the first character). -/
theorem convert_msg_ne_arrival (s : String) :
    ("could not convert string to float: " ++ s) ≠ "arrival must be after departure" := by
  intro h
  have h2 := congrArg (fun t : String => t.data.head?) h
  simp [String.data_append] at h2

/-- Membership in an `if`-guarded singleton reason. -/
theorem mem_guard_singleton (b : Bool) (x y : String) :
    (x ∈ (if b = true then ([] : List String) else [y])) ↔ (b = false ∧ x = y) := by
  cases b <;> simp

/-- The price check never emits the cross-field reason. -/
theorem arrival_not_in_price_error (s : String) :
    "arrival must be after departure" ∉
      (match validate_price s with
       | Except.ok _ => ([] : List String)
       | Except.error e => [e]) := by
  unfold validate_price
  cases hp : pyFloat s with
  | none =>
    simp only [List.mem_singleton]
    intro h
    exact convert_msg_ne_arrival s h.symm
  | some p =>
    cases hle : PyFloat.le p (.finite 0) <;> simp [hle]

/-- The cross-field reason sits in the field-error list exactly when both
timestamps parse and the arrival instant is at or before the departure. -/
theorem arrival_in_field_errors_iff (f0 f1 f2 f3 f4 : String) :
    "arrival must be after departure" ∈ field_errors f0 f1 f2 f3 f4 ↔
      ∃ d a, parse_datetime f3 = some d ∧ parse_datetime f4 = some a ∧
        PyDateTime.leb a d = true := by
  unfold field_errors
  cases hd : parse_datetime f3 with
  | none => simp +decide [List.mem_append, mem_guard_singleton, hd]
  | some d =>
    cases ha : parse_datetime f4 with
    | none => simp +decide [List.mem_append, mem_guard_singleton, ha]
    | some a =>
      cases hle : PyDateTime.leb a d <;>
        simp +decide [List.mem_append, mem_guard_singleton, hd, ha, hle]

/-- C4: for every six-field line, the validator's reason string is exactly the
joined reason list `row_reasons` (empty list meaning no error), and that list
contains `"arrival must be after departure"` iff both timestamps parse and the
arrival instant is at or before the departure instant; when either timestamp
fails to parse, the cross-field reason is never emitted. -/
theorem arrival_after_departure_reason (line : String) (line_number : Nat)
    (p0 p1 p2 p3 p4 p5 : String)
    (hsplit : pySplitComma (pyStrip line) = [p0, p1, p2, p3, p4, p5]) :
    ((validate_flight_row line line_number).2 =
      (if row_reasons (pyStrip p0) (pyStrip p1) (pyStrip p2) (pyStrip p3) (pyStrip p4)
            (pyStrip p5) = []
       then none
       else some (joinSemicolon (row_reasons (pyStrip p0) (pyStrip p1) (pyStrip p2)
            (pyStrip p3) (pyStrip p4) (pyStrip p5))))) ∧
    ("arrival must be after departure" ∈
        row_reasons (pyStrip p0) (pyStrip p1) (pyStrip p2) (pyStrip p3) (pyStrip p4)
          (pyStrip p5) ↔
      ∃ d a, parse_datetime (pyStrip p3) = some d ∧ parse_datetime (pyStrip p4) = some a ∧
        PyDateTime.leb a d = true) := by
  constructor
  · unfold validate_flight_row row_reasons
    rw [hsplit]
    cases hv : validate_price (pyStrip p5) with
    | error e => simp [hv]
    | ok p =>
      by_cases hfe :
          field_errors (pyStrip p0) (pyStrip p1) (pyStrip p2) (pyStrip p3) (pyStrip p4) = [] <;>
        simp [hv, hfe]
  · unfold row_reasons
    rw [List.mem_append]
    rw [arrival_in_field_errors_iff]
    have hp := arrival_not_in_price_error (pyStrip p5)
    constructor
    · intro h
      rcases h with h | h
      · exact h
      · exact absurd h hp
    · intro h
      exact Or.inl h

/-- Witness for C4 at the spec's reversed-timestamps example line. -/
theorem arrival_after_departure_reason_witness :
    ((validate_flight_row "AB12,JFK,LAX,2024-01-01 10:00,2024-01-01 08:00,100" 1).2 =
      (if row_reasons (pyStrip "AB12") (pyStrip "JFK") (pyStrip "LAX")
            (pyStrip "2024-01-01 10:00") (pyStrip "2024-01-01 08:00") (pyStrip "100") = []
       then none
       else some (joinSemicolon (row_reasons (pyStrip "AB12") (pyStrip "JFK") (pyStrip "LAX")
            (pyStrip "2024-01-01 10:00") (pyStrip "2024-01-01 08:00") (pyStrip "100"))))) ∧
    ("arrival must be after departure" ∈
        row_reasons (pyStrip "AB12") (pyStrip "JFK") (pyStrip "LAX")
          (pyStrip "2024-01-01 10:00") (pyStrip "2024-01-01 08:00") (pyStrip "100") ↔
      ∃ d a, parse_datetime (pyStrip "2024-01-01 10:00") = some d ∧
        parse_datetime (pyStrip "2024-01-01 08:00") = some a ∧
        PyDateTime.leb a d = true) :=
  arrival_after_departure_reason "AB12,JFK,LAX,2024-01-01 10:00,2024-01-01 08:00,100" 1
    "AB12" "JFK" "LAX" "2024-01-01 10:00" "2024-01-01 08:00" "100" (by decide)

/-! ## C5: invariants of every accepted record

The claim as stated fails on the code: `validate_price` rejects a parsed price
`p` only when `p <= 0` is true, and under float ordering `nan <= 0` is false,
so the line below with price `nan` is accepted and yields a record whose price
is NaN — not a positive real number. The checks that do hold of every accepted
record are collected in `accepted_record_invariants`. -/

/-- Counterexample to C5 as stated: a six-field line whose price field is
`nan` produces a record (no error), yet NaN is neither greater than zero nor
even comparable to it. -/
theorem nan_price_record_accepted :
    (validate_flight_row "AB12,JFK,LAX,2024-01-01 08:00,2024-01-01 10:00,nan" 1).1 =
      some ⟨"AB12", "JFK", "LAX", "2024-01-01 08:00", "2024-01-01 10:00", PyFloat.nan⟩ ∧
    PyFloat.lt (.finite 0) PyFloat.nan = false ∧
    PyFloat.le (.finite 0) PyFloat.nan = false := by
  decide

/-- C5 (amended): every record the validator returns has an alphanumeric
flight id of length 2–8, two airport codes, two timestamps that parse with the
departure instant strictly before the arrival instant, and a price that is a
parsed float for which `p <= 0` is false under float ordering — which admits
NaN and positive infinity in addition to positive reals. -/
theorem accepted_record_invariants (line : String) (line_number : Nat) (r : FlightRecord)
    (h : (validate_flight_row line line_number).1 = some r) :
    is_alnum_len r.flight_id 2 8 = true ∧
    is_airport_code r.origin = true ∧
    is_airport_code r.destination = true ∧
    (∃ d a, parse_datetime r.departure_datetime = some d ∧
      parse_datetime r.arrival_datetime = some a ∧ PyDateTime.ltb d a = true) ∧
    PyFloat.le r.price (.finite 0) = false := by
  unfold validate_flight_row at h
  split at h
  · rename_i p0 p1 p2 p3 p4 p5 heq
    dsimp only at h
    split at h
    · simp at h
    · rename_i p hp
      split at h
      · rename_i herr
        simp only [Prod.fst] at h
        obtain rfl : (⟨pyStrip p0, pyStrip p1, pyStrip p2, pyStrip p3, pyStrip p4, p⟩ :
            FlightRecord) = r := by simpa using h
        obtain ⟨hpv, hple⟩ := (validate_price_ok_iff _ _).mp hp
        simp only [field_errors, List.append_eq_nil, ite_singleton_eq_nil] at herr
        obtain ⟨⟨⟨⟨⟨hfid, horg⟩, hdst⟩, hdep⟩, harr⟩, hcross⟩ := herr
        obtain ⟨d, hd⟩ := Option.isSome_iff_exists.mp hdep
        obtain ⟨a, ha⟩ := Option.isSome_iff_exists.mp harr
        rw [hd, ha] at hcross
        simp only [emit_singleton_eq_nil] at hcross
        refine ⟨hfid, horg, hdst, ⟨d, a, hd, ha, ?_⟩, hple⟩
        simpa [PyDateTime.leb] using hcross
      · simp at h
  · simp at h

/-- Witness for the amended C5 at the spec's accepted example line. -/
theorem accepted_record_invariants_witness :
    is_alnum_len (FlightRecord.mk "AB12" "JFK" "LAX" "2024-01-01 08:00" "2024-01-01 10:00"
        (PyFloat.finite 100)).flight_id 2 8 = true ∧
    is_airport_code (FlightRecord.mk "AB12" "JFK" "LAX" "2024-01-01 08:00" "2024-01-01 10:00"
        (PyFloat.finite 100)).origin = true ∧
    is_airport_code (FlightRecord.mk "AB12" "JFK" "LAX" "2024-01-01 08:00" "2024-01-01 10:00"
        (PyFloat.finite 100)).destination = true ∧
    (∃ d a, parse_datetime (FlightRecord.mk "AB12" "JFK" "LAX" "2024-01-01 08:00"
        "2024-01-01 10:00" (PyFloat.finite 100)).departure_datetime = some d ∧
      parse_datetime (FlightRecord.mk "AB12" "JFK" "LAX" "2024-01-01 08:00" "2024-01-01 10:00"
        (PyFloat.finite 100)).arrival_datetime = some a ∧ PyDateTime.ltb d a = true) ∧
    PyFloat.le (FlightRecord.mk "AB12" "JFK" "LAX" "2024-01-01 08:00" "2024-01-01 10:00"
        (PyFloat.finite 100)).price (.finite 0) = false :=
  accepted_record_invariants "AB12,JFK,LAX,2024-01-01 08:00,2024-01-01 10:00,100" 1
    ⟨"AB12", "JFK", "LAX", "2024-01-01 08:00", "2024-01-01 10:00", PyFloat.finite 100⟩
    (by decide)

/-! ## C2: a record matches iff it passes every present-key check -/

/-- The equality check passes iff any present value equals the field. -/
theorem check_eq_true_iff (qv : Option String) (fv : String) :
    check_eq qv fv = true ↔ ∀ v, qv = some v → fv = v := by
  cases qv <;> simp [check_eq]

/-- The price check passes iff any present value parses and is not exceeded by
the record's price. -/
theorem check_price_true_iff (qv : Option String) (fp : PyFloat) :
    check_price qv fp = true ↔
      ∀ s, qv = some s → ∃ qp, pyFloat s = some qp ∧ PyFloat.lt qp fp = false := by
  cases qv with
  | none => simp [check_price]
  | some s =>
    simp only [check_price, Option.some.injEq]
    cases hp : pyFloat s with
    | none => simp [hp]
    | some qp => simp [hp, Bool.not_eq_true']

/-- The departure check passes iff any present value and the record's
departure both parse, with the record's not earlier. -/
theorem check_departure_true_iff (qv : Option String) (fs : String) :
    check_departure qv fs = true ↔
      ∀ s, qv = some s → ∃ fd qd, parse_datetime fs = some fd ∧
        parse_datetime s = some qd ∧ PyDateTime.ltb fd qd = false := by
  cases qv with
  | none => simp [check_departure]
  | some s =>
    simp only [check_departure, Option.some.injEq]
    cases hf : parse_datetime fs with
    | none => simp [hf]
    | some fd =>
      cases hq : parse_datetime s with
      | none => simp [hf, hq]
      | some qd => simp [hf, hq, Bool.not_eq_true']

/-- The arrival check passes iff any present value and the record's arrival
both parse, with the record's not later. -/
theorem check_arrival_true_iff (qv : Option String) (fs : String) :
    check_arrival qv fs = true ↔
      ∀ s, qv = some s → ∃ fa qa, parse_datetime fs = some fa ∧
        parse_datetime s = some qa ∧ PyDateTime.ltb qa fa = false := by
  cases qv with
  | none => simp [check_arrival]
  | some s =>
    simp only [check_arrival, Option.some.injEq]
    cases hf : parse_datetime fs with
    | none => simp [hf]
    | some fa =>
      cases hq : parse_datetime s with
      | none => simp [hf, hq]
      | some qa => simp [hf, hq, Bool.not_eq_true']

/-- C2: a stored record matches a query exactly when it passes each
present-key check independently — string equality on `flight_id`, `origin`
and `destination`, the price upper bound, the departure lower bound, the
arrival upper bound — and any parse failure of a comparison value makes the
record a non-match rather than an error. -/
theorem matches_query_iff_spec (flight : FlightRecord) (q : Query) :
    flight_matches_query flight q = true ↔ flightMatchesSpec flight q := by
  unfold flight_matches_query flightMatchesSpec
  simp only [Bool.and_eq_true, check_eq_true_iff, check_price_true_iff,
    check_departure_true_iff, check_arrival_true_iff]
  tauto

/-! ## C6: adding a key to a query can only shrink the match set -/

/-- Pointwise monotonicity: a record matching a query extended at an absent
key also matches the original query. -/
theorem matches_of_matches_set (flight : FlightRecord) (q : Query) (k : QueryKey)
    (v : String) (hk : q.get k = none)
    (hm : flight_matches_query flight (q.set k v) = true) :
    flight_matches_query flight q = true := by
  cases k <;>
    simp only [Query.get] at hk <;>
    simp only [flight_matches_query, Query.set, Bool.and_eq_true, hk, check_eq,
      check_price, check_departure, check_arrival] at hm ⊢ <;>
    tauto

/-- C6: extending a query with one additional recognized key — however
unsatisfiable — yields a match set over any store that is a subset of the
original query's match set. -/
theorem adding_key_shrinks_matches (S : List FlightRecord) (q : Query) (k : QueryKey)
    (v : String) (hk : q.get k = none) :
    S.filter (fun f => flight_matches_query f (q.set k v)) ⊆
      S.filter (fun f => flight_matches_query f q) := by
  intro x hx
  rw [List.mem_filter] at hx ⊢
  exact ⟨hx.1, matches_of_matches_set x q k v hk hx.2⟩

/-- Witness for C6: adding an unsatisfiable price bound to the empty query
over a one-record store. -/
theorem adding_key_shrinks_matches_witness :
    ([⟨"AB12", "JFK", "LAX", "2024-01-01 08:00", "2024-01-01 10:00", PyFloat.finite 100⟩] :
        List FlightRecord).filter
      (fun f => flight_matches_query f
        ((⟨none, none, none, none, none, none⟩ : Query).set .price "50")) ⊆
    ([⟨"AB12", "JFK", "LAX", "2024-01-01 08:00", "2024-01-01 10:00", PyFloat.finite 100⟩] :
        List FlightRecord).filter
      (fun f => flight_matches_query f (⟨none, none, none, none, none, none⟩ : Query)) :=
  adding_key_shrinks_matches _ _ QueryKey.price "50" (by decide)

/-! ## C7: save then load round-trips the store -/

/-- Decoding inverts serialization on one record. -/
theorem flightOfJson_flightToJson (f : FlightRecord) :
    flightOfJson (flightToJson f) = some f := rfl

/-- C7: persisting an ordered record sequence and loading it back yields the
same sequence, field for field and in the same order. -/
theorem save_load_roundtrip (flights : List FlightRecord) :
    load_db_json (save_db_json flights) = some flights := by
  unfold load_db_json save_db_json
  induction flights with
  | nil => rfl
  | cons f t ih =>
    simp only [List.map_cons, List.mapM_cons, flightOfJson_flightToJson] at ih ⊢
    rw [ih]
    rfl

/-! ## C8: contribution of a failing source

The claim as stated fails on the code: the `try/except: pass` in
`parse_csv_file` wraps the whole read loop, and the accumulators are mutated
in place, so when reading fails midway (e.g. a decode error deep in the file)
the lines yielded before the failure keep their contribution. Only a source
that fails before yielding any line — a file that cannot be opened —
contributes nothing. In both cases the failure is swallowed and ingestion
continues. -/

/-- Counterexample to C8 as stated: a source whose read fails after one valid
line was yielded contributes that record, not zero records. -/
theorem midread_failure_keeps_contribution :
    (Source.mk ["AB12,JFK,LAX,2024-01-01 08:00,2024-01-01 10:00,100"] true).readFails = true ∧
    parse_csv_file
        (Source.mk ["AB12,JFK,LAX,2024-01-01 08:00,2024-01-01 10:00,100"] true) [] [] =
      ([⟨"AB12", "JFK", "LAX", "2024-01-01 08:00", "2024-01-01 10:00",
          PyFloat.finite 100⟩], []) := by
  decide

/-- C8 (amended): a source that fails before yielding any line — in
particular one that cannot be opened — contributes no records and no error
entries, the failure is swallowed, and ingestion continues with the remaining
sources unchanged; when a read fails midway, the lines yielded before the
failure keep their contribution. -/
theorem unreadable_source_contributes_nothing (pre post : List Source) (src : Source)
    (hfail : src.readFails = true) (hempty : src.lines = []) :
    parse_input_sources (pre ++ src :: post) = parse_input_sources (pre ++ post) := by
  unfold parse_input_sources
  rw [List.foldl_append, List.foldl_cons, List.foldl_append]
  have hskip : ∀ acc : List FlightRecord × List String,
      parse_csv_file src acc.1 acc.2 = acc := by
    intro acc
    unfold parse_csv_file
    rw [hempty]
    rfl
  rw [hskip]

/-- Witness for the amended C8: an unreadable source between two readable
ones changes nothing. -/
theorem unreadable_source_contributes_nothing_witness :
    parse_input_sources
        [Source.mk ["AB12,JFK,LAX,2024-01-01 08:00,2024-01-01 10:00,100"] false,
         Source.mk [] true,
         Source.mk ["CD34,SFO,SEA,2024-02-01 08:00,2024-02-01 10:00,50"] false] =
      parse_input_sources
        [Source.mk ["AB12,JFK,LAX,2024-01-01 08:00,2024-01-01 10:00,100"] false,
         Source.mk ["CD34,SFO,SEA,2024-02-01 08:00,2024-02-01 10:00,50"] false] :=
  unreadable_source_contributes_nothing
    [Source.mk ["AB12,JFK,LAX,2024-01-01 08:00,2024-01-01 10:00,100"] false]
    [Source.mk ["CD34,SFO,SEA,2024-02-01 08:00,2024-02-01 10:00,50"] false]
    (Source.mk [] true) (by decide) (by decide)

/-! ## C9: the header rule takes precedence over the comment rule -/

/-- C9: a stripped line that both starts with `#` and, on line 1, contains
`flight_id` is skipped silently as a header — no comment entry, no
validation; on any other line number, or without `flight_id`, it is logged as
a comment. -/
theorem header_rule_precedes_comment_rule (line_number : Nat) (line : String)
    (acc : List FlightRecord × List String)
    (hhash : startsWithHash (pyStrip line) = true) :
    ((line_number = 1 ∧ pyIn "flight_id" (pyStrip line) = true) →
      processLine line_number line acc = acc) ∧
    (¬(line_number = 1 ∧ pyIn "flight_id" (pyStrip line) = true) →
      processLine line_number line acc =
        (acc.1, acc.2 ++ [commentEntry line_number (pyStrip line)])) := by
  have hne : ¬(pyStrip line = "") := by
    intro h
    rw [h] at hhash
    simp [startsWithHash] at hhash
  constructor
  · rintro ⟨rfl, hin⟩
    simp [processLine, hne, hin]
  · intro hnot
    have hcond : (decide (line_number = 1) && pyIn "flight_id" (pyStrip line)) = false := by
      rcases Decidable.em (line_number = 1) with h1 | h1
      · have : pyIn "flight_id" (pyStrip line) = false := by
          cases hin : pyIn "flight_id" (pyStrip line)
          · rfl
          · exact absurd ⟨h1, hin⟩ hnot
        simp [this]
      · simp [h1]
    simp [processLine, hne, hcond, hhash]

/-- Witness for C9: the header case on line 1 and the comment case on
line 2. -/
theorem header_rule_precedes_comment_rule_witness :
    processLine 1 "#flight_id,origin" ([], []) = ([], []) ∧
    processLine 2 "# note" ([], []) =
      ((([], []) : List FlightRecord × List String).1,
       (([], []) : List FlightRecord × List String).2 ++ [commentEntry 2 (pyStrip "# note")]) :=
  ⟨(header_rule_precedes_comment_rule 1 "#flight_id,origin" ([], []) (by decide)).1
      ⟨rfl, by decide⟩,
   (header_rule_precedes_comment_rule 2 "# note" ([], []) (by decide)).2 (by decide)⟩

end Lab2
